import Mathlib

/-!
# Verification of the simulation-and-judge core

Shallow embedding of the simulation engine (`src/mas/simulation/index.ts`),
the preset scenarios (`src/mas/simulation/scenarios.ts`) and the judge team
(`src/mas/judge`, shipped in `src/api/simulation.ts` of this checkout),
together with theorems about scenario evaluation, quality scoring, judging
and the consensus verdict.

Modelling conventions:
* JS numbers that only ever hold integers are embedded as `Int`/`Nat`;
  the two genuinely fractional quantities (`passRate` and the arguments of
  `Math.round`) are embedded as `Rat`.
* `Math.round` is `jsRound` (floor of `q + 1/2`, the JS semantics).
* TS `Map`s are embedded as lists with key-preserving upsert, matching the
  JS `Map` insertion-order semantics used by `getScenarios`/`getVerdicts`.
* The executor passed to `runSimulation` is embedded as a pure function of
  the scenario input; the wall clock (`Date.now`) and the session trace
  returned by the tracer are explicit parameters.
* Fallible code (`throw new Error(...)`) is embedded with `Except String`.
-/

/-- JS `Math.round`: round half toward plus infinity, i.e. `⌊q + 1/2⌋`. -/
def jsRound (q : ℚ) : ℤ := ⌊q + 1/2⌋

/-- `needle` is a prefix of `hay` (over character lists). -/
def charsPrefix : List Char → List Char → Bool
  | [], _ => true
  | _ :: _, [] => false
  | a :: as, b :: bs => a == b && charsPrefix as bs

/-- `needle` occurs contiguously in `hay` (over character lists). -/
def charsInfix : List Char → List Char → Bool
  | needle, [] => needle.isEmpty
  | needle, b :: bs => charsPrefix needle (b :: bs) || charsInfix needle bs

/-- JS `String.prototype.includes`: `needle` occurs as a contiguous
substring of `hay`. -/
def jsIncludes (hay needle : String) : Bool :=
  charsInfix needle.data hay.data

/-- JS `String.prototype.toLowerCase`, character by character (the
strings of this code base are ASCII). -/
def jsToLower (s : String) : String := ⟨s.data.map Char.toLower⟩

/-- JS `String.prototype.slice(0, n)`, character by character. -/
def strTake (s : String) (n : Nat) : String := ⟨s.data.take n⟩

/-- Scenario lifecycle status (`SimulationScenario.status` in
`src/mas/simulation/index.ts`; the type has no `error` member). -/
inductive ScenarioStatus
  | pending
  | running
  | passed
  | failed
  | warning
deriving DecidableEq, Repr

/-- One scripted turn of a scenario (`ScenarioInput`). -/
structure ScenarioInput where
  step : Nat
  customerMessage : String
  expectedIntent : Option String := none
  expectedAgent : Option String := none
deriving DecidableEq, Repr

/-- `ExpectedOutcome` of a scenario. -/
structure ExpectedOutcome where
  escalated : Bool
  agentSequence : List String
  toolsCalled : Option (List String) := none
  finalMessageContains : Option (List String) := none
deriving DecidableEq, Repr

/-- Modelled from the spec: the tracing module (`src/mas/tracing`) is not in
the sources; the spec describes the Tracer as a per-session append-only
event log. Only the number of recorded events is read by the engine. -/
structure TraceEvent where
  kind : String
  info : String
deriving DecidableEq, Repr

/-- Modelled from the spec: a session trace is the ordered list of events
the tracer recorded for one session. -/
structure SessionTrace where
  timeline : List TraceEvent
deriving DecidableEq, Repr

/-- Modelled from the spec: `tracer.initSession` creates a fresh, empty
per-session event log; a pure executor appends nothing to it. -/
def emptyTrace : SessionTrace := ⟨[]⟩

/-- `ActualOutcome` of an executed scenario.  The TS field `trace` is
declared `SessionTrace` but is assigned `tracer.getTrace(sessionId)!` and
read with `?.`, so it is embedded as an `Option`. -/
structure ActualOutcome where
  escalated : Bool
  agentSequence : List String
  toolsCalled : List String
  trace : Option SessionTrace
  finalMessage : String
deriving DecidableEq, Repr

/-- `SimulationScenario`. -/
structure SimulationScenario where
  id : String
  name : String
  description : String
  inputs : List ScenarioInput
  expectedOutcome : ExpectedOutcome
  actualOutcome : Option ActualOutcome := none
  status : ScenarioStatus
  executedAt : Option String := none
  duration : Option Nat := none
deriving DecidableEq, Repr

/-- Timeline event discriminator (`TimelineEvent.type`). -/
inductive TimelineEventType
  | message
  | routing
  | tool
  | decision
  | escalation
deriving DecidableEq, Repr

/-- `TimelineEvent`.  The wall-clock `timestamp` and the untyped `data`
record are not modelled; the discriminator and description carry all
information the core reads back. -/
structure TimelineEvent where
  type : TimelineEventType
  description : String
deriving DecidableEq, Repr

/-- `TimelineFork` (declared in the source, never populated). -/
structure TimelineFork where
  atEvent : Nat
  reason : String
  alternativePaths : List String
  chosenPath : String
deriving DecidableEq, Repr

/-- `FinalState` summary of a timeline. -/
structure FinalState where
  resolved : Bool
  escalated : Bool
  customerSatisfied : Option Bool := none
  toolsUsed : List String
  agentsInvolved : List String
  totalDuration : Nat
  qualityScore : ℤ
deriving DecidableEq, Repr

/-- `SimulationTimeline`. -/
structure SimulationTimeline where
  scenarioId : String
  events : List TimelineEvent
  forks : List TimelineFork
  finalState : FinalState
deriving DecidableEq, Repr

/-- The four judged dimensions of a `JudgeVerdict`. -/
structure JudgeDimensions where
  accuracy : ℤ
  efficiency : ℤ
  appropriateness : ℤ
  escalationHandling : ℤ
deriving DecidableEq, Repr

/-- `JudgeVerdict` for one scenario. -/
structure JudgeVerdict where
  scenarioId : String
  overallScore : ℤ
  dimensions : JudgeDimensions
  issues : List String
  suggestions : List String
  timestamp : String
deriving DecidableEq, Repr

/-- The mutable state of a `SimulationEngine` instance: the scenario map,
the timeline map (keyed by scenario id) and the verdict map (keyed by
scenario id), all in insertion order. -/
structure EngineState where
  scenarios : List SimulationScenario
  timelines : List (String × SimulationTimeline)
  verdicts : List JudgeVerdict
deriving DecidableEq, Repr

/-- JS `Map.set` on the timeline map: overwrite in place or append. -/
def setTimeline : List (String × SimulationTimeline) → String → SimulationTimeline →
    List (String × SimulationTimeline)
  | [], sid, t => [(sid, t)]
  | (k, v) :: rest, sid, t =>
    if k = sid then (sid, t) :: rest else (k, v) :: setTimeline rest sid t

/-- JS `Map.get` on the timeline map. -/
def lookupTimeline (ts : List (String × SimulationTimeline)) (sid : String) :
    Option SimulationTimeline :=
  (ts.find? (fun p => p.1 = sid)).map (·.2)

/-- JS `Map.set` on the verdict map (keyed by `scenarioId`). -/
def upsertVerdict : List JudgeVerdict → JudgeVerdict → List JudgeVerdict
  | [], v => [v]
  | w :: rest, v =>
    if w.scenarioId = v.scenarioId then v :: rest else w :: upsertVerdict rest v

/-- In-place mutation of the scenario object held by the scenario map. -/
def replaceScenario (l : List SimulationScenario) (s : SimulationScenario) :
    List SimulationScenario :=
  l.map (fun t => if t.id = s.id then s else t)

/-- Result of a single executor call (`{ message, escalated }`). -/
structure ExecResult where
  message : String
  escalated : Bool
deriving DecidableEq, Repr

/-- Outputs of the replay loop inside `runSimulation`: the accumulated
timeline events, the final values of the `escalated` and `finalMessage`
mutables, and the inputs the executor was actually invoked on. -/
structure LoopResult where
  events : List TimelineEvent
  escalated : Bool
  finalMessage : String
  processed : List ScenarioInput
deriving DecidableEq, Repr

/-- The `message` timeline event pushed before each executor call. -/
def messageEvent (input : ScenarioInput) : TimelineEvent :=
  ⟨.message, "Customer: \"" ++ strTake input.customerMessage 50 ++ "...\""⟩

/-- The `escalation`/`decision` timeline event pushed after each call. -/
def responseEvent (r : ExecResult) : TimelineEvent :=
  if r.escalated then ⟨.escalation, "Escalated to human"⟩
  else ⟨.decision, "Response: \"" ++ strTake r.message 50 ++ "...\""⟩

/-- The `for (const input of scenario.inputs)` loop of `runSimulation`:
push a `message` event, call the executor, remember its reply, push the
`escalation`/`decision` event, and `break` as soon as a reply escalates.
`esc`/`msg` are the current values of the two mutables. -/
def simLoop (executor : ScenarioInput → ExecResult) (esc : Bool) (msg : String) :
    List ScenarioInput → LoopResult
  | [] => ⟨[], esc, msg, []⟩
  | input :: rest =>
    let r := executor input
    let evs := [messageEvent input, responseEvent r]
    if r.escalated then
      ⟨evs, true, r.message, [input]⟩
    else
      let tail := simLoop executor false r.message rest
      ⟨evs ++ tail.events, tail.escalated, tail.finalMessage, input :: tail.processed⟩

/-- `SimulationEngine.evaluateScenario`: pass iff the escalation flag
matches exactly and every required substring occurs case-insensitively in
the final reply. -/
def evaluateScenario (scenario : SimulationScenario) : Bool :=
  match scenario.actualOutcome with
  | none => false
  | some actual =>
    if scenario.expectedOutcome.escalated != actual.escalated then false
    else
      (scenario.expectedOutcome.finalMessageContains.getD []).all
        (fun needle => jsIncludes (jsToLower actual.finalMessage) (jsToLower needle))

/-- Event count read by the quality score: `actual.trace?.timeline.length || 0`. -/
def traceEventCount (trace : Option SessionTrace) : Nat :=
  match trace with
  | some t => t.timeline.length
  | none => 0

/-- `SimulationEngine.calculateQualityScore`. -/
def calculateQualityScore (scenario : SimulationScenario) (actual : ActualOutcome) : ℤ :=
  let s1 : ℤ := 100
  let s2 := if actual.escalated && !scenario.expectedOutcome.escalated then s1 - 30 else s1
  let s3 := if !actual.escalated && scenario.expectedOutcome.escalated then s2 - 40 else s2
  let eventCount := traceEventCount actual.trace
  let s4 := if eventCount ≤ 3 then s3 + 5 else if eventCount > 10 then s3 - 10 else s3
  max 0 (min 100 s4)

/-- Everything `runSimulation` produces for one scenario: the mutated
scenario object, the stored timeline, and (for reasoning about the loop)
the list of inputs the executor was invoked on. -/
structure RunResult where
  scenario : SimulationScenario
  timeline : SimulationTimeline
  processed : List ScenarioInput
deriving DecidableEq, Repr

/-- The `ActualOutcome` record built by `runSimulation`: loop results plus
the trace handed back by the tracer.  The `agentSequence`/`toolsCalled`
arrays are created and never appended to, hence always empty.  `trace` is
what `tracer.getTrace` returns after the run. -/
def runActual (scenario : SimulationScenario) (executor : ScenarioInput → ExecResult)
    (trace : Option SessionTrace) : ActualOutcome :=
  let res := simLoop executor false "" scenario.inputs
  { escalated := res.escalated, agentSequence := [], toolsCalled := [],
    trace := trace, finalMessage := res.finalMessage }

/-- Body of `SimulationEngine.runSimulation` once the scenario is found
(continued): assemble final state, timeline and the mutated scenario. -/
def runScenario (scenario : SimulationScenario) (executor : ScenarioInput → ExecResult)
    (trace : Option SessionTrace) (duration : Nat) (nowIso : String) : RunResult :=
  let res := simLoop executor false "" scenario.inputs
  let actual : ActualOutcome := runActual scenario executor trace
  let finalState : FinalState :=
    { resolved := !res.escalated, escalated := res.escalated,
      toolsUsed := [], agentsInvolved := [],
      totalDuration := duration,
      qualityScore := calculateQualityScore scenario actual }
  let timeline : SimulationTimeline := ⟨scenario.id, res.events, [], finalState⟩
  let s1 := { scenario with actualOutcome := some actual }
  let s2 := { s1 with
    status := if evaluateScenario s1 then ScenarioStatus.passed else ScenarioStatus.failed,
    executedAt := some nowIso,
    duration := some duration }
  ⟨s2, timeline, res.processed⟩

/-- `SimulationEngine.runSimulation`: look up the scenario (throwing when
unregistered), run it and store the mutated scenario and timeline. -/
def EngineState.runSimulation (eng : EngineState) (scenarioId : String)
    (executor : ScenarioInput → ExecResult) (trace : Option SessionTrace)
    (duration : Nat) (nowIso : String) : Except String (SimulationTimeline × EngineState) :=
  match eng.scenarios.find? (fun s => s.id = scenarioId) with
  | none => .error ("Scenario not found: " ++ scenarioId)
  | some scenario =>
    let r := runScenario scenario executor trace duration nowIso
    .ok (r.timeline,
      { eng with
        scenarios := replaceScenario eng.scenarios r.scenario,
        timelines := setTimeline eng.timelines scenarioId r.timeline })

/-- `SimulationEngine.judgeScenario`: throws when the scenario or its
timeline is missing; otherwise scores the four dimensions and stores the
verdict. -/
def judgeScenario (eng : EngineState) (scenarioId : String) (nowIso : String) :
    Except String (JudgeVerdict × EngineState) :=
  match eng.scenarios.find? (fun s => s.id = scenarioId),
        lookupTimeline eng.timelines scenarioId with
  | some scenario, some timeline =>
    let accuracy : ℤ := if scenario.status = .failed then 40 else 100
    let issues1 : List String :=
      if scenario.status = .failed then ["Scenario did not meet expected outcome"] else []
    let efficiency : ℤ := if timeline.finalState.totalDuration > 5000 then 100 - 20 else 100
    let suggestions1 : List String :=
      if timeline.finalState.totalDuration > 5000 then ["Consider caching or parallel execution"] else []
    let routingCount := (timeline.events.filter (fun e => e.type == TimelineEventType.routing)).length
    let appropriateness : ℤ := if routingCount > 3 then 85 - 30 else 85
    let issues2 : List String :=
      if routingCount > 3 then ["Too many routing decisions - unclear intent classification"] else []
    let actualEscalated := match scenario.actualOutcome with
      | some a => a.escalated
      | none => false
    let escalationHandling : ℤ :=
      if scenario.expectedOutcome.escalated && !actualEscalated then 20 else 90
    let issues3 : List String :=
      if scenario.expectedOutcome.escalated && !actualEscalated then ["Failed to escalate when expected"] else []
    let overallScore : ℤ :=
      jsRound (((accuracy + efficiency + appropriateness + escalationHandling : ℤ) : ℚ) / 4)
    let verdict : JudgeVerdict :=
      { scenarioId := scenarioId,
        overallScore := overallScore,
        dimensions := ⟨accuracy, efficiency, appropriateness, escalationHandling⟩,
        issues := issues1 ++ issues2 ++ issues3,
        suggestions := suggestions1,
        timestamp := nowIso }
    .ok (verdict, { eng with verdicts := upsertVerdict eng.verdicts verdict })
  | _, _ => .error "Cannot judge: scenario or timeline not found"

/-- `JudgeSession.status`. -/
inductive JudgeSessionStatus
  | active
  | completed
  | failed
deriving DecidableEq, Repr

/-- Severity of a `CriticalIssue`. -/
inductive Severity
  | critical
  | major
  | minor
deriving DecidableEq, Repr

/-- `ConsensusVerdict.recommendation`. -/
inductive Recommendation
  | SHIP
  | IMPROVE
  | BLOCK
deriving DecidableEq, Repr

/-- `CriticalIssue`. -/
structure CriticalIssue where
  severity : Severity
  category : String
  description : String
  affectedScenarios : List String
  suggestedFix : String
deriving DecidableEq, Repr

/-- `ImprovementArea`. -/
structure ImprovementArea where
  area : String
  currentScore : ℤ
  targetScore : ℤ
  actions : List String
deriving DecidableEq, Repr

/-- `TrainingSignal.type`. -/
inductive SignalType
  | positive
  | negative
  | corrective
deriving DecidableEq, Repr

/-- `TrainingSignal`. -/
structure TrainingSignal where
  type : SignalType
  scenarioId : String
  input : String
  expectedOutput : String
  actualOutput : String
  correction : Option String := none
deriving DecidableEq, Repr

/-- `ConsensusVerdict`. -/
structure ConsensusVerdict where
  overallScore : ℤ
  passRate : ℚ
  criticalIssues : List CriticalIssue
  improvementAreas : List ImprovementArea
  trainingSignals : List TrainingSignal
  recommendation : Recommendation
deriving DecidableEq, Repr

/-- `JudgeSession`. -/
structure JudgeSession where
  id : String
  startedAt : String
  completedAt : Option String := none
  status : JudgeSessionStatus
  scenariosJudged : List String
  consensusReached : Bool
  finalVerdict : Option ConsensusVerdict := none
deriving DecidableEq, Repr

/-- The mutable state of the `JudgeTeam` instance that the claims touch:
the session map, in insertion order.  (The fixed judge roster and the last
integration-check run are read-only metadata for these claims.) -/
structure JudgeTeamState where
  sessions : List JudgeSession
deriving DecidableEq, Repr

/-- `JudgeTeam.startSession`: create an `active` session keyed by a
time-based id. -/
def startSession (team : JudgeTeamState) (nowMs : String) (nowIso : String) :
    JudgeSession × JudgeTeamState :=
  let session : JudgeSession :=
    { id := "judge_" ++ nowMs, startedAt := nowIso, status := .active,
      scenariosJudged := [], consensusReached := false }
  (session, ⟨team.sessions ++ [session]⟩)

/-- JS `Map.get` on the session map. -/
def findSession (team : JudgeTeamState) (sessionId : String) : Option JudgeSession :=
  team.sessions.find? (fun s => s.id = sessionId)

/-- In-place mutation of the session object held by the session map. -/
def updateSession (team : JudgeTeamState) (sessionId : String)
    (f : JudgeSession → JudgeSession) : JudgeTeamState :=
  ⟨team.sessions.map (fun s => if s.id = sessionId then f s else s)⟩

/-- One iteration of the `judgeAllScenarios` loop: try to judge the
scenario; on success append its id to the accumulator and keep the
updated engine, on a caught error leave the accumulator unchanged. -/
def judgeFold (nowIso : String) (acc : List String × EngineState)
    (s : SimulationScenario) : List String × EngineState :=
  match judgeScenario acc.2 s.id nowIso with
  | .ok (_, eng') => (acc.1 ++ [s.id], eng')
  | .error _ => acc

/-- `JudgeTeam.judgeAllScenarios`: throws when the session is unknown;
otherwise judges every scenario whose status is not `pending`, appending
each successfully judged id to `scenariosJudged` and swallowing
per-scenario judging errors. -/
def judgeAllScenarios (team : JudgeTeamState) (eng : EngineState)
    (sessionId : String) (nowIso : String) :
    Except String (JudgeTeamState × EngineState) :=
  match findSession team sessionId with
  | none => .error ("Session not found: " ++ sessionId)
  | some _ =>
    let executed := eng.scenarios.filter (fun s => !(s.status == ScenarioStatus.pending))
    let final := executed.foldl (judgeFold nowIso) ([], eng)
    .ok (updateSession team sessionId
          (fun s => { s with scenariosJudged := s.scenariosJudged ++ final.1 }),
         final.2)

/-- `JudgeTeam.calculateAverageDimensions`. -/
def calculateAverageDimensions (verdicts : List JudgeVerdict) : JudgeDimensions :=
  if verdicts.length = 0 then ⟨0, 0, 0, 0⟩
  else
    let n : ℚ := verdicts.length
    ⟨jsRound (((verdicts.map (fun v => v.dimensions.accuracy)).sum : ℤ) / n),
     jsRound (((verdicts.map (fun v => v.dimensions.efficiency)).sum : ℤ) / n),
     jsRound (((verdicts.map (fun v => v.dimensions.appropriateness)).sum : ℤ) / n),
     jsRound (((verdicts.map (fun v => v.dimensions.escalationHandling)).sum : ℤ) / n)⟩

/-- The two issue records `reachConsensus` can emit per verdict. -/
def escalationIssue (v : JudgeVerdict) : CriticalIssue :=
  ⟨.critical, "Escalation", "Escalation handling is below threshold",
   [v.scenarioId], "Review escalation detection logic"⟩

/-- The `major` accuracy issue record. -/
def accuracyIssue (v : JudgeVerdict) : CriticalIssue :=
  ⟨.major, "Accuracy", "Response accuracy is below threshold",
   [v.scenarioId], "Improve intent classification"⟩

/-- The critical-issue scan of `reachConsensus`: per verdict, a `critical`
entry when `escalationHandling < 50` and a `major` entry when
`accuracy < 50`, in loop order. -/
def criticalIssuesOf (verdicts : List JudgeVerdict) : List CriticalIssue :=
  verdicts.flatMap (fun v =>
    (if v.dimensions.escalationHandling < 50 then [escalationIssue v] else []) ++
    (if v.dimensions.accuracy < 50 then [accuracyIssue v] else []))

/-- The training-signal scan of `reachConsensus`: every `failed` scenario
with an actual outcome contributes one `negative` signal built from its
FIRST input; a failed, executed scenario with no inputs makes the
JS code read `customerMessage` off `undefined` and throw. -/
def buildTrainingSignals : List SimulationScenario → Except String (List TrainingSignal)
  | [] => .ok []
  | s :: rest =>
    if s.status = .failed then
      match s.actualOutcome with
      | some actual =>
        match s.inputs with
        | [] => .error "TypeError: cannot read customerMessage of undefined"
        | first :: _ => do
          let sigs ← buildTrainingSignals rest
          .ok ({ type := .negative, scenarioId := s.id,
                 input := first.customerMessage,
                 expectedOutput :=
                   String.intercalate ", " (s.expectedOutcome.finalMessageContains.getD []),
                 actualOutput := actual.finalMessage } :: sigs)
      | none => buildTrainingSignals rest
    else buildTrainingSignals rest

/-- `scenarios.filter(s => s.status === 'passed').length` in
`reachConsensus`. -/
def passedCount (eng : EngineState) : Nat :=
  (eng.scenarios.filter (fun s => s.status == ScenarioStatus.passed)).length

/-- `scenarios.filter(s => s.status !== 'pending').length` in
`reachConsensus`. -/
def executedCount (eng : EngineState) : Nat :=
  (eng.scenarios.filter (fun s => !(s.status == ScenarioStatus.pending))).length

/-- The pure aggregation of `reachConsensus`: pass rate, overall score,
critical issues, improvement areas and recommendation, all computed from
the engine state; the already-built training signals are carried along. -/
def consensusOf (eng : EngineState) (trainingSignals : List TrainingSignal) :
    ConsensusVerdict :=
  let verdicts := eng.verdicts
  let passed := passedCount eng
  let total := executedCount eng
  let passRate : ℚ := if total > 0 then ((passed : ℚ) / (total : ℚ)) * 100 else 0
  let weightedScore : ℤ := (verdicts.map (fun v => v.overallScore)).sum
  let overallScore : ℤ :=
    if verdicts.length > 0 then jsRound ((weightedScore : ℚ) / (verdicts.length : ℚ)) else 0
  let criticalIssues := criticalIssuesOf verdicts
  let avg := calculateAverageDimensions verdicts
  let improvementAreas : List ImprovementArea :=
    (if avg.accuracy < 80 then
      [⟨"Intent Classification", avg.accuracy, 85,
        ["Add more training examples", "Improve prompt engineering"]⟩] else []) ++
    (if avg.efficiency < 80 then
      [⟨"Response Efficiency", avg.efficiency, 85,
        ["Reduce tool call latency", "Cache frequent lookups"]⟩] else [])
  let recommendation : Recommendation :=
    if criticalIssues.any (fun i => i.severity == Severity.critical) then .BLOCK
    else if passRate < 80 ∨ overallScore < 70 then .IMPROVE
    else .SHIP
  ⟨overallScore, passRate, criticalIssues, improvementAreas,
   trainingSignals, recommendation⟩

/-- The session mutation performed at the end of `reachConsensus`. -/
def completeSession (consensus : ConsensusVerdict) (nowIso : String)
    (s : JudgeSession) : JudgeSession :=
  { s with finalVerdict := some consensus, consensusReached := true,
           completedAt := some nowIso, status := .completed }

/-- `JudgeTeam.reachConsensus`: throws when the session is unknown;
propagates the training-signal `TypeError`; otherwise aggregates the
engine's scenarios and verdicts into a `ConsensusVerdict` and completes
the session. -/
def reachConsensus (team : JudgeTeamState) (eng : EngineState)
    (sessionId : String) (nowIso : String) :
    Except String (ConsensusVerdict × JudgeTeamState) :=
  match findSession team sessionId with
  | none => .error ("Session not found: " ++ sessionId)
  | some _ =>
    match buildTrainingSignals eng.scenarios with
    | .error e => .error e
    | .ok trainingSignals =>
      let consensus := consensusOf eng trainingSignals
      .ok (consensus,
        updateSession team sessionId (completeSession consensus nowIso))

/-- Scenario `SCENE-001` exactly as registered from
`src/mas/simulation/scenarios.ts`. -/
def scene001 : SimulationScenario :=
  { id := "SCENE-001",
    name := "Order Status Inquiry",
    description := "Customer asks about order status - happy path",
    inputs :=
      [⟨1, "Hi, I placed an order last week. Can you tell me where it is?", some "ORDER_STATUS", none⟩,
       ⟨2, "The order number is #1234567", some "ORDER_STATUS", none⟩],
    expectedOutcome :=
      { escalated := false,
        agentSequence := ["order-agent"],
        toolsCalled := some ["get_order", "get_tracking"],
        finalMessageContains := some ["order", "status"] },
    status := .pending }

/-! ## Projection lemmas for `runScenario` -/

theorem runScenario_actualOutcome (scenario : SimulationScenario)
    (executor : ScenarioInput → ExecResult) (trace : Option SessionTrace)
    (duration : Nat) (nowIso : String) :
    (runScenario scenario executor trace duration nowIso).scenario.actualOutcome =
      some (runActual scenario executor trace) := rfl

theorem runScenario_status (scenario : SimulationScenario)
    (executor : ScenarioInput → ExecResult) (trace : Option SessionTrace)
    (duration : Nat) (nowIso : String) :
    (runScenario scenario executor trace duration nowIso).scenario.status =
      (if evaluateScenario { scenario with actualOutcome := some (runActual scenario executor trace) }
       then ScenarioStatus.passed else ScenarioStatus.failed) := rfl

theorem runScenario_qualityScore (scenario : SimulationScenario)
    (executor : ScenarioInput → ExecResult) (trace : Option SessionTrace)
    (duration : Nat) (nowIso : String) :
    (runScenario scenario executor trace duration nowIso).timeline.finalState.qualityScore =
      calculateQualityScore scenario (runActual scenario executor trace) := rfl

theorem runScenario_finalState_escalated (scenario : SimulationScenario)
    (executor : ScenarioInput → ExecResult) (trace : Option SessionTrace)
    (duration : Nat) (nowIso : String) :
    (runScenario scenario executor trace duration nowIso).timeline.finalState.escalated =
      (simLoop executor false "" scenario.inputs).escalated := rfl

theorem runScenario_events (scenario : SimulationScenario)
    (executor : ScenarioInput → ExecResult) (trace : Option SessionTrace)
    (duration : Nat) (nowIso : String) :
    (runScenario scenario executor trace duration nowIso).timeline.events =
      (simLoop executor false "" scenario.inputs).events := rfl

theorem runScenario_processed (scenario : SimulationScenario)
    (executor : ScenarioInput → ExecResult) (trace : Option SessionTrace)
    (duration : Nat) (nowIso : String) :
    (runScenario scenario executor trace duration nowIso).processed =
      (simLoop executor false "" scenario.inputs).processed := rfl

theorem runActual_escalated (scenario : SimulationScenario)
    (executor : ScenarioInput → ExecResult) (trace : Option SessionTrace) :
    (runActual scenario executor trace).escalated =
      (simLoop executor false "" scenario.inputs).escalated := rfl

theorem runActual_finalMessage (scenario : SimulationScenario)
    (executor : ScenarioInput → ExecResult) (trace : Option SessionTrace) :
    (runActual scenario executor trace).finalMessage =
      (simLoop executor false "" scenario.inputs).finalMessage := rfl

/-- `evaluateScenario` in logical form, given the actual outcome. -/
theorem evaluateScenario_eq_true_iff (s : SimulationScenario) (ao : ActualOutcome)
    (h : s.actualOutcome = some ao) :
    evaluateScenario s = true ↔
      (s.expectedOutcome.escalated = ao.escalated ∧
       ∀ needle ∈ s.expectedOutcome.finalMessageContains.getD [],
         jsIncludes (jsToLower ao.finalMessage) (jsToLower needle) = true) := by
  unfold evaluateScenario
  rw [h]
  by_cases hesc : s.expectedOutcome.escalated = ao.escalated
  · simp [hesc, List.all_eq_true]
  · simp [hesc, bne_iff_ne]

/-- C1: for every scenario on which `runSimulation` completes normally,
the resulting status is `passed` iff `expectedOutcome.escalated` equals
the actual escalated flag exactly and, when `finalMessageContains` is
present, every string in it occurs as a case-insensitive substring of the
actual final reply; any single mismatch yields status `failed`. -/
theorem c1_passed_iff (scenario : SimulationScenario)
    (executor : ScenarioInput → ExecResult) (trace : Option SessionTrace)
    (duration : Nat) (nowIso : String) (ao : ActualOutcome)
    (hao : (runScenario scenario executor trace duration nowIso).scenario.actualOutcome = some ao) :
    ((runScenario scenario executor trace duration nowIso).scenario.status = ScenarioStatus.passed ∨
     (runScenario scenario executor trace duration nowIso).scenario.status = ScenarioStatus.failed) ∧
    ((runScenario scenario executor trace duration nowIso).scenario.status = ScenarioStatus.passed ↔
      (scenario.expectedOutcome.escalated = ao.escalated ∧
       ∀ needle ∈ scenario.expectedOutcome.finalMessageContains.getD [],
         jsIncludes (jsToLower ao.finalMessage) (jsToLower needle) = true)) := by
  rw [runScenario_actualOutcome] at hao
  obtain rfl : runActual scenario executor trace = ao := Option.some.inj hao
  rw [runScenario_status]
  have heval := evaluateScenario_eq_true_iff
    { scenario with actualOutcome := some (runActual scenario executor trace) }
    (runActual scenario executor trace) rfl
  cases h : evaluateScenario
      { scenario with actualOutcome := some (runActual scenario executor trace) } with
  | true =>
    rw [h] at heval
    exact ⟨Or.inl (by simp [h]), by simpa [h] using heval⟩
  | false =>
    rw [h] at heval
    exact ⟨Or.inr (by simp [h]), by simpa [h] using heval⟩

/-- C1 witness: a run of `SCENE-001` against the constant happy-path
responder satisfies the hypothesis of `c1_passed_iff`, and the theorem
then decides the status. -/
theorem c1_passed_iff_witness :
    ((runScenario scene001 (fun _ => ⟨"I can help with your order status", false⟩)
        (some emptyTrace) 0 "t").scenario.actualOutcome =
      some (runActual scene001 (fun _ => ⟨"I can help with your order status", false⟩)
        (some emptyTrace))) ∧
    ((runScenario scene001 (fun _ => ⟨"I can help with your order status", false⟩)
        (some emptyTrace) 0 "t").scenario.status = ScenarioStatus.passed ↔
      (scene001.expectedOutcome.escalated =
        (runActual scene001 (fun _ => ⟨"I can help with your order status", false⟩)
          (some emptyTrace)).escalated ∧
       ∀ needle ∈ scene001.expectedOutcome.finalMessageContains.getD [],
         jsIncludes (jsToLower (runActual scene001 (fun _ => ⟨"I can help with your order status", false⟩)
            (some emptyTrace)).finalMessage) (jsToLower needle) = true)) :=
  ⟨rfl, (c1_passed_iff scene001 (fun _ => ⟨"I can help with your order status", false⟩)
      (some emptyTrace) 0 "t" _ rfl).2⟩

/-- Definition following the spec's words (§4.2, quality score): start at
100; subtract 30 when the run escalated but escalation was not expected;
subtract 40 when escalation was expected but the run did not escalate;
add 5 when the trace recorded at most 3 events; subtract 10 when it
recorded more than 10; clamp to [0, 100]. -/
def specQualityScore (expectedEscalated actualEscalated : Bool) (eventCount : Nat) : ℤ :=
  let base : ℤ := 100
  let afterUnexpected :=
    if actualEscalated = true ∧ expectedEscalated = false then base - 30 else base
  let afterMissed :=
    if expectedEscalated = true ∧ actualEscalated = false then afterUnexpected - 40
    else afterUnexpected
  let afterBonus := if eventCount ≤ 3 then afterMissed + 5 else afterMissed
  let afterPenalty := if eventCount > 10 then afterBonus - 10 else afterBonus
  max 0 (min 100 afterPenalty)

/-- The code's quality score agrees with the spec-worded formula. -/
theorem calculateQualityScore_eq_spec (scenario : SimulationScenario) (actual : ActualOutcome) :
    calculateQualityScore scenario actual =
      specQualityScore scenario.expectedOutcome.escalated actual.escalated
        (traceEventCount actual.trace) := by
  unfold calculateQualityScore specQualityScore
  cases hE : scenario.expectedOutcome.escalated <;> cases hA : actual.escalated <;>
    by_cases h1 : traceEventCount actual.trace ≤ 3 <;>
    by_cases h2 : traceEventCount actual.trace > 10 <;>
    simp_all <;> omega

/-- The clamp keeps the quality score inside [0, 100]. -/
theorem calculateQualityScore_bounds (scenario : SimulationScenario) (actual : ActualOutcome) :
    0 ≤ calculateQualityScore scenario actual ∧ calculateQualityScore scenario actual ≤ 100 := by
  unfold calculateQualityScore
  exact ⟨le_max_left 0 _, max_le (by norm_num) (min_le_left _ _)⟩

/-- C3: for every timeline produced by `runSimulation`,
`finalState.qualityScore` equals the spec's computation (start at 100,
subtract 30 for an unexpected escalation, subtract 40 for a missed
escalation, add 5 for at most 3 trace events, subtract 10 for more than
10, clamp to [0,100]) and is therefore always an integer in [0, 100]. -/
theorem c3_quality_score (scenario : SimulationScenario)
    (executor : ScenarioInput → ExecResult) (trace : Option SessionTrace)
    (duration : Nat) (nowIso : String) :
    (runScenario scenario executor trace duration nowIso).timeline.finalState.qualityScore =
      specQualityScore scenario.expectedOutcome.escalated
        (runScenario scenario executor trace duration nowIso).timeline.finalState.escalated
        (traceEventCount trace) ∧
    0 ≤ (runScenario scenario executor trace duration nowIso).timeline.finalState.qualityScore ∧
    (runScenario scenario executor trace duration nowIso).timeline.finalState.qualityScore ≤ 100 := by
  rw [runScenario_qualityScore, runScenario_finalState_escalated]
  refine ⟨?_, calculateQualityScore_bounds scenario (runActual scenario executor trace)⟩
  have h := calculateQualityScore_eq_spec scenario (runActual scenario executor trace)
  rwa [runActual_escalated] at h

/-- Replay-loop characterisation when the reply to the `k`-th input is the
first one to escalate: the loop consumes exactly the first `k+1` inputs,
ends escalated, keeps that reply as the final message, and the events are
exactly one message/response pair per consumed input. -/
theorem simLoop_first_escalation (executor : ScenarioInput → ExecResult) :
    ∀ (inputs : List ScenarioInput) (k : Nat) (hk : k < inputs.length),
      (executor (inputs.get ⟨k, hk⟩)).escalated = true →
      (∀ j (hj : j < k), (executor (inputs.get ⟨j, lt_trans hj hk⟩)).escalated = false) →
      ∀ msg,
        (simLoop executor false msg inputs).processed = inputs.take (k+1) ∧
        (simLoop executor false msg inputs).escalated = true ∧
        (simLoop executor false msg inputs).finalMessage =
          (executor (inputs.get ⟨k, hk⟩)).message ∧
        (simLoop executor false msg inputs).events =
          (inputs.take (k+1)).flatMap
            (fun i => [messageEvent i, responseEvent (executor i)]) := by
  intro inputs
  induction inputs with
  | nil => intro k hk; exact absurd hk (Nat.not_lt_zero k)
  | cons i rest ih =>
    intro k hk hesc hbefore msg
    cases k with
    | zero =>
      simp only [List.get] at hesc
      simp only [simLoop, hesc, if_true]
      simp [List.take]
    | succ k' =>
      have h0 : (executor i).escalated = false := by
        have := hbefore 0 (Nat.succ_pos k')
        simpa using this
      have hk' : k' < rest.length := Nat.lt_of_succ_lt_succ hk
      have hesc' : (executor (rest.get ⟨k', hk'⟩)).escalated = true := by
        simpa using hesc
      have hbefore' : ∀ j (hj : j < k'),
          (executor (rest.get ⟨j, lt_trans hj hk'⟩)).escalated = false := by
        intro j hj
        have := hbefore (j+1) (Nat.succ_lt_succ hj)
        simpa using this
      obtain ⟨hp, he, hm, hev⟩ := ih k' hk' hesc' hbefore' (executor i).message
      simp only [simLoop, h0, Bool.false_eq_true, if_false]
      refine ⟨?_, he, ?_, ?_⟩
      · simp [hp, List.take]
      · simpa using hm
      · simp [hev, List.take, List.flatMap_cons]

/-- C5: once the executor's reply for some input escalates, no later input
of the scenario is ever passed to the executor; the loop stops right after
that turn's `escalation` timeline event, the skipped inputs produce no
events, and the final message is the reply to the escalating input. -/
theorem c5_early_exit (scenario : SimulationScenario)
    (executor : ScenarioInput → ExecResult) (trace : Option SessionTrace)
    (duration : Nat) (nowIso : String) (k : Nat) (hk : k < scenario.inputs.length)
    (hesc : (executor (scenario.inputs.get ⟨k, hk⟩)).escalated = true)
    (hbefore : ∀ j (hj : j < k),
      (executor (scenario.inputs.get ⟨j, lt_trans hj hk⟩)).escalated = false) :
    (runScenario scenario executor trace duration nowIso).processed =
      scenario.inputs.take (k+1) ∧
    (runScenario scenario executor trace duration nowIso).timeline.events =
      (scenario.inputs.take (k+1)).flatMap
        (fun i => [messageEvent i, responseEvent (executor i)]) ∧
    (runScenario scenario executor trace duration nowIso).timeline.events.getLast? =
      some ⟨TimelineEventType.escalation, "Escalated to human"⟩ ∧
    ∀ ao, (runScenario scenario executor trace duration nowIso).scenario.actualOutcome = some ao →
      ao.escalated = true ∧
      ao.finalMessage = (executor (scenario.inputs.get ⟨k, hk⟩)).message := by
  obtain ⟨hp, he, hm, hev⟩ :=
    simLoop_first_escalation executor scenario.inputs k hk hesc hbefore ""
  simp only [List.get_eq_getElem] at hesc
  rw [runScenario_processed, runScenario_events]
  have htake : scenario.inputs.take (k+1) =
      scenario.inputs.take k ++ [scenario.inputs.get ⟨k, hk⟩] := by
    rw [List.take_succ]
    congr 1
    simp [List.getElem?_eq_getElem hk]
  have hrE : responseEvent (executor (scenario.inputs.get ⟨k, hk⟩)) =
      ⟨TimelineEventType.escalation, "Escalated to human"⟩ := by
    simp [responseEvent, hesc]
  simp only [List.get_eq_getElem] at hrE
  refine ⟨hp, hev, ?_, ?_⟩
  · rw [hev, htake, List.flatMap_append]
    simp [hrE]
  · intro ao hao
    rw [runScenario_actualOutcome] at hao
    obtain rfl := Option.some.inj hao
    rw [runActual_escalated, runActual_finalMessage]
    exact ⟨he, hm⟩

/-- C5 witness: an executor that escalates immediately on the first input
of `SCENE-001` exercises the theorem at `k = 0`. -/
theorem c5_early_exit_witness :
    ((fun i => if i.step = 1 then ExecResult.mk "I am escalating this to our team." true
               else ExecResult.mk "later reply" false)
        (scene001.inputs.get ⟨0, by simp [scene001]⟩)).escalated = true ∧
    (runScenario scene001
        (fun i => if i.step = 1 then ExecResult.mk "I am escalating this to our team." true
                  else ExecResult.mk "later reply" false)
        (some emptyTrace) 0 "t").processed = scene001.inputs.take 1 := by
  refine ⟨by simp [scene001], ?_⟩
  exact (c5_early_exit scene001
    (fun i => if i.step = 1 then ExecResult.mk "I am escalating this to our team." true
              else ExecResult.mk "later reply" false)
    (some emptyTrace) 0 "t" 0 (by simp [scene001]) (by simp [scene001])
    (fun j hj => absurd hj (Nat.not_lt_zero j))).1

/-- C8: for the registered scenario `SCENE-001` (expects no escalation and
a final message containing "order" and "status"), any executor that
replies "I can help with your order status" with `escalated = false` on
every turn yields status `passed` and `finalState.qualityScore = 100`.
The tracer is modelled from the spec as starting with an empty per-session
event log, which a pure responder never appends to. -/
theorem c8_scene001 (executor : ScenarioInput → ExecResult)
    (duration : Nat) (nowIso : String)
    (hexec : ∀ i, executor i = ⟨"I can help with your order status", false⟩) :
    (runScenario scene001 executor (some emptyTrace) duration nowIso).scenario.status =
      ScenarioStatus.passed ∧
    (runScenario scene001 executor (some emptyTrace) duration nowIso).timeline.finalState.qualityScore
      = 100 := by
  have hfun : executor = fun _ => ⟨"I can help with your order status", false⟩ := funext hexec
  subst hfun
  constructor
  · rw [runScenario_status]
    decide
  · rw [runScenario_qualityScore]
    decide

/-- C8 witness: the constant happy-path responder satisfies the
hypothesis, and the theorem applies to it. -/
theorem c8_scene001_witness :
    (∀ i, (fun (_ : ScenarioInput) => ExecResult.mk "I can help with your order status" false) i =
      ⟨"I can help with your order status", false⟩) ∧
    (runScenario scene001 (fun _ => ExecResult.mk "I can help with your order status" false)
        (some emptyTrace) 0 "t").scenario.status = ScenarioStatus.passed ∧
    (runScenario scene001 (fun _ => ExecResult.mk "I can help with your order status" false)
        (some emptyTrace) 0 "t").timeline.finalState.qualityScore = 100 :=
  ⟨fun _ => rfl,
   c8_scene001 (fun _ => ExecResult.mk "I can help with your order status" false) 0 "t"
     (fun _ => rfl)⟩

/-- C4: for every scenario with both a registered entry and a stored
timeline, `judgeScenario` returns a verdict whose dimensions are computed
independently (accuracy 40 on failure else 100; efficiency 100 minus 20
above 5000 ms; appropriateness 85 minus 30 above 3 routing events;
escalationHandling 90, or 20 on a missed expected escalation) and whose
overall score is the unweighted mean of the four, rounded to the nearest
integer. -/
theorem c4_judge_dimensions (eng : EngineState) (scenarioId nowIso : String)
    (s : SimulationScenario) (t : SimulationTimeline) (v : JudgeVerdict) (eng' : EngineState)
    (hs : eng.scenarios.find? (fun x => x.id = scenarioId) = some s)
    (ht : lookupTimeline eng.timelines scenarioId = some t)
    (hok : judgeScenario eng scenarioId nowIso = .ok (v, eng')) :
    v.dimensions.accuracy = (if s.status = ScenarioStatus.failed then 40 else 100) ∧
    v.dimensions.efficiency = (if t.finalState.totalDuration > 5000 then 80 else 100) ∧
    v.dimensions.appropriateness =
      (if (t.events.filter (fun e => e.type == TimelineEventType.routing)).length > 3
       then 55 else 85) ∧
    v.dimensions.escalationHandling =
      (if s.expectedOutcome.escalated = true ∧
          ((s.actualOutcome.map (fun a => a.escalated)).getD false) = false
       then 20 else 90) ∧
    v.overallScore = jsRound (((v.dimensions.accuracy + v.dimensions.efficiency +
      v.dimensions.appropriateness + v.dimensions.escalationHandling : ℤ) : ℚ) / 4) := by
  unfold judgeScenario at hok
  rw [hs, ht] at hok
  simp only [Except.ok.injEq, Prod.mk.injEq] at hok
  obtain ⟨hv, -⟩ := hok
  subst hv
  refine ⟨?_, ?_, ?_, ?_, ?_⟩
  · by_cases hf : s.status = ScenarioStatus.failed <;> simp [hf]
  · by_cases hd : t.finalState.totalDuration > 5000 <;> simp [hd]
  · by_cases hr : (t.events.filter (fun e => e.type == TimelineEventType.routing)).length > 3 <;>
      simp [hr]
  · cases hao : s.actualOutcome with
    | none =>
      cases hE : s.expectedOutcome.escalated <;> simp [hao, hE]
    | some a =>
      cases hE : s.expectedOutcome.escalated <;> cases hA : a.escalated <;>
        simp [hao, hE, hA]
  · by_cases hf : s.status = ScenarioStatus.failed <;>
      by_cases hd : t.finalState.totalDuration > 5000 <;>
      by_cases hr : (t.events.filter (fun e => e.type == TimelineEventType.routing)).length > 3 <;>
      cases hao : s.actualOutcome <;>
      simp [hf, hd, hr, hao]

/-- A small passed scenario used to instantiate the judging theorems. -/
def c4scn : SimulationScenario :=
  { id := "S1", name := "n", description := "d",
    inputs := [⟨1, "hello", none, none⟩],
    expectedOutcome := ⟨false, [], none, none⟩,
    actualOutcome := some ⟨false, [], [], some emptyTrace, "ok"⟩,
    status := .passed }

/-- A stored timeline for `c4scn`. -/
def c4tl : SimulationTimeline :=
  ⟨"S1", [], [], ⟨true, false, none, [], [], 0, 100⟩⟩

/-- Engine state holding `c4scn` and its timeline. -/
def c4eng : EngineState := ⟨[c4scn], [("S1", c4tl)], []⟩

/-- The verdict `judgeScenario` produces on `c4eng`. -/
def c4v : JudgeVerdict := ⟨"S1", 94, ⟨100, 100, 85, 90⟩, [], [], "t"⟩

/-- The engine state after judging `c4scn`. -/
def c4engAfter : EngineState := ⟨[c4scn], [("S1", c4tl)], [c4v]⟩

/-- Evaluation of `judgeScenario` on the concrete state. -/
theorem judgeScenario_c4eng :
    judgeScenario c4eng "S1" "t" = .ok (c4v, c4engAfter) := by
  simp [judgeScenario, lookupTimeline, c4eng, c4scn, c4tl, c4v, c4engAfter, upsertVerdict, jsRound]
  norm_num

/-- C4 witness: the hypotheses of `c4_judge_dimensions` hold on the
concrete engine state, and the theorem yields the accuracy dimension. -/
theorem c4_judge_dimensions_witness :
    (c4eng.scenarios.find? (fun x => x.id = "S1") = some c4scn) ∧
    (lookupTimeline c4eng.timelines "S1" = some c4tl) ∧
    (judgeScenario c4eng "S1" "t" = .ok (c4v, c4engAfter)) ∧
    c4v.dimensions.accuracy = (if c4scn.status = ScenarioStatus.failed then 40 else 100) :=
  ⟨rfl, rfl, judgeScenario_c4eng,
   (c4_judge_dimensions c4eng "S1" "t" c4scn c4tl c4v c4engAfter rfl rfl
      judgeScenario_c4eng).1⟩

/-! ## Consensus lemmas -/

/-- Unfolding `criticalIssuesOf` over one verdict. -/
theorem criticalIssuesOf_cons (w : JudgeVerdict) (rest : List JudgeVerdict) :
    criticalIssuesOf (w :: rest) =
      ((if w.dimensions.escalationHandling < 50 then [escalationIssue w] else []) ++
       (if w.dimensions.accuracy < 50 then [accuracyIssue w] else [])) ++
      criticalIssuesOf rest := by
  simp [criticalIssuesOf, List.flatMap_cons]

/-- One `critical` issue is emitted per verdict with
`escalationHandling < 50`. -/
theorem criticalIssuesOf_countP_critical (verdicts : List JudgeVerdict) :
    (criticalIssuesOf verdicts).countP (fun i => i.severity == Severity.critical) =
      verdicts.countP (fun w => decide (w.dimensions.escalationHandling < 50)) := by
  induction verdicts with
  | nil => rfl
  | cons w rest ih =>
    rw [criticalIssuesOf_cons, List.countP_append, List.countP_append,
        List.countP_cons, ih]
    by_cases h1 : w.dimensions.escalationHandling < 50 <;>
      by_cases h2 : w.dimensions.accuracy < 50 <;>
      simp [h1, h2, escalationIssue, accuracyIssue, List.countP_cons, List.countP_nil] <;>
      omega

/-- One `major` issue is emitted per verdict with `accuracy < 50`. -/
theorem criticalIssuesOf_countP_major (verdicts : List JudgeVerdict) :
    (criticalIssuesOf verdicts).countP (fun i => i.severity == Severity.major) =
      verdicts.countP (fun w => decide (w.dimensions.accuracy < 50)) := by
  induction verdicts with
  | nil => rfl
  | cons w rest ih =>
    rw [criticalIssuesOf_cons, List.countP_append, List.countP_append,
        List.countP_cons, ih]
    by_cases h1 : w.dimensions.escalationHandling < 50 <;>
      by_cases h2 : w.dimensions.accuracy < 50 <;>
      simp [h1, h2, escalationIssue, accuracyIssue, List.countP_cons, List.countP_nil] <;>
      omega

/-- A `critical`-severity issue exists iff some verdict has
`escalationHandling < 50`. -/
theorem criticalIssuesOf_any_critical (verdicts : List JudgeVerdict) :
    ((criticalIssuesOf verdicts).any (fun i => i.severity == Severity.critical) = true) ↔
      ∃ w ∈ verdicts, w.dimensions.escalationHandling < 50 := by
  induction verdicts with
  | nil => simp [criticalIssuesOf]
  | cons w rest ih =>
    rw [criticalIssuesOf_cons, List.any_append, List.any_append]
    by_cases h1 : w.dimensions.escalationHandling < 50 <;>
      by_cases h2 : w.dimensions.accuracy < 50 <;>
      simp [h1, h2, escalationIssue, accuracyIssue, ih]

/-- The critical issues of a consensus verdict. -/
theorem consensusOf_criticalIssues (eng : EngineState) (sigs : List TrainingSignal) :
    (consensusOf eng sigs).criticalIssues = criticalIssuesOf eng.verdicts := rfl

/-- The recommendation of a consensus verdict, in terms of its own pass
rate, overall score and critical-issue scan. -/
theorem consensusOf_recommendation (eng : EngineState) (sigs : List TrainingSignal) :
    (consensusOf eng sigs).recommendation =
      (if (criticalIssuesOf eng.verdicts).any (fun i => i.severity == Severity.critical)
       then Recommendation.BLOCK
       else if (consensusOf eng sigs).passRate < 80 ∨ (consensusOf eng sigs).overallScore < 70
            then Recommendation.IMPROVE else Recommendation.SHIP) := rfl

/-- Inversion of a successful `reachConsensus` call. -/
theorem reachConsensus_ok_inversion (team : JudgeTeamState) (eng : EngineState)
    (sessionId nowIso : String) (v : ConsensusVerdict) (team' : JudgeTeamState)
    (hok : reachConsensus team eng sessionId nowIso = .ok (v, team')) :
    ∃ sess sigs, findSession team sessionId = some sess ∧
      buildTrainingSignals eng.scenarios = .ok sigs ∧
      v = consensusOf eng sigs ∧
      team' = updateSession team sessionId (completeSession (consensusOf eng sigs) nowIso) := by
  unfold reachConsensus at hok
  cases hfind : findSession team sessionId with
  | none => rw [hfind] at hok; cases hok
  | some sess =>
    rw [hfind] at hok
    cases hsig : buildTrainingSignals eng.scenarios with
    | error e => rw [hsig] at hok; cases hok
    | ok sigs =>
      rw [hsig] at hok
      simp only [Except.ok.injEq, Prod.mk.injEq] at hok
      exact ⟨sess, sigs, rfl, rfl, hok.1.symm, hok.2.symm⟩

/-- C2: a successful `reachConsensus` computes the pass rate as
`100 * passed / executed` over the engine's scenarios (0 when none were
executed), emits one `critical` issue per verdict with
`escalationHandling < 50` and one `major` issue per verdict with
`accuracy < 50`, recommends `BLOCK` exactly when a critical-severity
issue exists, and otherwise recommends `IMPROVE` when the pass rate is
below 80 or the overall score below 70, else `SHIP`. -/
theorem c2_consensus (team : JudgeTeamState) (eng : EngineState)
    (sessionId nowIso : String) (v : ConsensusVerdict) (team' : JudgeTeamState)
    (hok : reachConsensus team eng sessionId nowIso = .ok (v, team')) :
    (v.passRate = if executedCount eng = 0 then 0
      else 100 * (passedCount eng : ℚ) / (executedCount eng : ℚ)) ∧
    (v.criticalIssues.countP (fun i => i.severity == Severity.critical) =
      eng.verdicts.countP (fun w => decide (w.dimensions.escalationHandling < 50))) ∧
    (v.criticalIssues.countP (fun i => i.severity == Severity.major) =
      eng.verdicts.countP (fun w => decide (w.dimensions.accuracy < 50))) ∧
    (v.recommendation = Recommendation.BLOCK ↔
      ∃ i ∈ v.criticalIssues, i.severity = Severity.critical) ∧
    ((¬∃ i ∈ v.criticalIssues, i.severity = Severity.critical) →
      v.recommendation =
        if v.passRate < 80 ∨ v.overallScore < 70 then Recommendation.IMPROVE
        else Recommendation.SHIP) := by
  obtain ⟨sess, sigs, -, -, rfl, -⟩ :=
    reachConsensus_ok_inversion team eng sessionId nowIso v team' hok
  refine ⟨?_, ?_, ?_, ?_, ?_⟩
  · show (if 0 < executedCount eng then
        ((passedCount eng : ℚ) / (executedCount eng : ℚ)) * 100 else 0) = _
    rcases Nat.eq_zero_or_pos (executedCount eng) with hz | hp
    · simp [hz]
    · rw [if_pos hp, if_neg (Nat.pos_iff_ne_zero.mp hp)]
      ring
  · exact criticalIssuesOf_countP_critical eng.verdicts
  · exact criticalIssuesOf_countP_major eng.verdicts
  · rw [consensusOf_recommendation, consensusOf_criticalIssues]
    cases hA : (criticalIssuesOf eng.verdicts).any (fun i => i.severity == Severity.critical) with
    | true =>
      obtain ⟨i, hi, hsev⟩ := List.any_eq_true.mp hA
      simp only [if_true]
      exact ⟨fun _ => ⟨i, hi, by simpa using hsev⟩, fun _ => by simp⟩
    | false =>
      simp only [Bool.false_eq_true, if_false]
      constructor
      · intro hblock
        rcases ite_eq_iff.mp hblock with ⟨-, h⟩ | ⟨-, h⟩ <;> cases h
      · intro ⟨i, hi, hsev⟩
        have := List.any_eq_false.mp hA i hi
        simp [hsev] at this
  · intro hnone
    rw [consensusOf_criticalIssues] at hnone
    have hA : (criticalIssuesOf eng.verdicts).any (fun i => i.severity == Severity.critical) = false := by
      rw [List.any_eq_false]
      intro i hi
      simp only [beq_iff_eq]
      exact fun hc => hnone ⟨i, hi, hc⟩
    rw [consensusOf_recommendation, hA]
    simp only [Bool.false_eq_true, if_false]

/-! ## Concrete judge states for witnesses and counterexamples -/

/-- An engine with nothing registered. -/
def engEmpty : EngineState := ⟨[], [], []⟩

/-- A freshly started judge session. -/
def sessActive : JudgeSession :=
  ⟨"j1", "t0", none, .active, [], false, none⟩

/-- A judge team holding only `sessActive`. -/
def teamActive : JudgeTeamState := ⟨[sessActive]⟩

/-- The consensus verdict computed over the empty engine: no verdicts, no
executed scenarios, zero average dimensions, hence both improvement areas
and an `IMPROVE` recommendation. -/
def emptyConsensus : ConsensusVerdict :=
  ⟨0, 0, [],
   [⟨"Intent Classification", 0, 85,
     ["Add more training examples", "Improve prompt engineering"]⟩,
    ⟨"Response Efficiency", 0, 85,
     ["Reduce tool call latency", "Cache frequent lookups"]⟩],
   [], .IMPROVE⟩

/-- `sessActive` after consensus was reached at `nowIso`. -/
def sessDone (nowIso : String) : JudgeSession :=
  ⟨"j1", "t0", some nowIso, .completed, [], true, some emptyConsensus⟩

/-- The judge team after consensus was reached at `nowIso`. -/
def teamDone (nowIso : String) : JudgeTeamState := ⟨[sessDone nowIso]⟩

/-- Evaluation: consensus over the empty engine from the active session. -/
theorem reachConsensus_teamActive (nowIso : String) :
    reachConsensus teamActive engEmpty "j1" nowIso =
      .ok (emptyConsensus, teamDone nowIso) := by
  simp [reachConsensus, findSession, buildTrainingSignals, consensusOf, updateSession,
        completeSession, passedCount, executedCount, criticalIssuesOf,
        calculateAverageDimensions, teamActive, sessActive, engEmpty, emptyConsensus,
        teamDone, sessDone, jsRound]

/-- Evaluation: a second consensus call on the already-completed session
succeeds again and re-stamps the session. -/
theorem reachConsensus_teamDone (n1 n2 : String) :
    reachConsensus (teamDone n1) engEmpty "j1" n2 =
      .ok (emptyConsensus, teamDone n2) := by
  simp [reachConsensus, findSession, buildTrainingSignals, consensusOf, updateSession,
        completeSession, passedCount, executedCount, criticalIssuesOf,
        calculateAverageDimensions, engEmpty, emptyConsensus,
        teamDone, sessDone, jsRound]

/-- C2 witness: the hypothesis of `c2_consensus` holds on the concrete
empty-engine state and the theorem yields the pass-rate equation there. -/
theorem c2_consensus_witness :
    (reachConsensus teamActive engEmpty "j1" "t1" = .ok (emptyConsensus, teamDone "t1")) ∧
    (emptyConsensus.passRate = if executedCount engEmpty = 0 then 0
      else 100 * (passedCount engEmpty : ℚ) / (executedCount engEmpty : ℚ)) :=
  ⟨reachConsensus_teamActive "t1",
   (c2_consensus teamActive engEmpty "j1" "t1" emptyConsensus (teamDone "t1")
      (reachConsensus_teamActive "t1")).1⟩

/-- A failed, executed scenario with one input (used to change the
consensus between two calls and to exercise training signals). -/
def scnFailed : SimulationScenario :=
  { id := "F1", name := "n", description := "d",
    inputs := [⟨1, "msg1", none, none⟩],
    expectedOutcome := ⟨true, [], none, some ["x"]⟩,
    actualOutcome := some ⟨false, [], [], some emptyTrace, "nope"⟩,
    status := .failed }

/-- Engine holding only `scnFailed`. -/
def engFailed : EngineState := ⟨[scnFailed], [], []⟩

/-- The consensus verdict computed over `engFailed`: pass rate 0, one
negative training signal, recommendation `IMPROVE`. -/
def failedConsensus : ConsensusVerdict :=
  ⟨0, 0, [],
   [⟨"Intent Classification", 0, 85,
     ["Add more training examples", "Improve prompt engineering"]⟩,
    ⟨"Response Efficiency", 0, 85,
     ["Reduce tool call latency", "Cache frequent lookups"]⟩],
   [⟨.negative, "F1", "msg1", "x", "nope", none⟩], .IMPROVE⟩

/-- Evaluation: consensus over `engFailed` from the already-completed
session re-stamps the session with a different verdict. -/
theorem reachConsensus_teamDone_engFailed (n1 n2 : String) :
    reachConsensus (teamDone n1) engFailed "j1" n2 =
      .ok (failedConsensus,
        ⟨[⟨"j1", "t0", some n2, .completed, [], true, some failedConsensus⟩]⟩) := by
  simp [reachConsensus, findSession, buildTrainingSignals, consensusOf, updateSession,
        completeSession, passedCount, executedCount, criticalIssuesOf,
        calculateAverageDimensions, engFailed, scnFailed, failedConsensus,
        teamDone, sessDone, jsRound, String.intercalate]
  rfl

/-- C6 counterexample: `reachConsensus` does not guard against repeated
calls: after a first call completes the session, a second call on the same
session id succeeds again, overwrites `completedAt` and assigns a
different `finalVerdict`, so a `completed` session is not immutable and
`finalVerdict` is not set exactly once. -/
theorem c6_counterexample :
    (sessDone "t1").status = JudgeSessionStatus.completed ∧
    reachConsensus teamActive engEmpty "j1" "t1" = .ok (emptyConsensus, teamDone "t1") ∧
    reachConsensus (teamDone "t1") engFailed "j1" "t2" =
      .ok (failedConsensus,
        ⟨[⟨"j1", "t0", some "t2", .completed, [], true, some failedConsensus⟩]⟩) ∧
    (⟨"j1", "t0", some "t2", .completed, [], true, some failedConsensus⟩ : JudgeSession) ≠
      sessDone "t1" ∧
    some failedConsensus ≠ (sessDone "t1").finalVerdict :=
  ⟨rfl, reachConsensus_teamActive "t1", reachConsensus_teamDone_engFailed "t1" "t2",
   by decide, by decide⟩

/-- C6 amended: within a single successful `reachConsensus` call the
session with the given id gets `finalVerdict`, `consensusReached`,
`completedAt` and `status = completed` together; but the code does not
prevent a later `reachConsensus` call on the same session id from
reassigning them, so the exactly-once and immutability guarantees hold
only under the discipline that `reachConsensus` is called at most once
per session. -/
theorem c6_amended_consensus_completes (team : JudgeTeamState) (eng : EngineState)
    (sessionId nowIso : String) (v : ConsensusVerdict) (team' : JudgeTeamState)
    (hok : reachConsensus team eng sessionId nowIso = .ok (v, team')) :
    ∀ s' ∈ team'.sessions, s'.id = sessionId →
      s'.finalVerdict = some v ∧ s'.consensusReached = true ∧
      s'.status = JudgeSessionStatus.completed ∧ s'.completedAt = some nowIso := by
  obtain ⟨sess, sigs, -, -, rfl, rfl⟩ :=
    reachConsensus_ok_inversion team eng sessionId nowIso v team' hok
  intro s' hs' hid
  simp only [updateSession, List.mem_map] at hs'
  obtain ⟨s, -, rfl⟩ := hs'
  by_cases h : s.id = sessionId
  · simp [h, completeSession]
  · rw [if_neg h] at hid ⊢
    exact absurd hid h

/-- C6 amended witness: the first consensus call on the concrete state
completes the session `j1` with the verdict it returns. -/
theorem c6_amended_consensus_completes_witness :
    (reachConsensus teamActive engEmpty "j1" "t1" = .ok (emptyConsensus, teamDone "t1")) ∧
    (sessDone "t1" ∈ (teamDone "t1").sessions) ∧
    ((sessDone "t1").finalVerdict = some emptyConsensus ∧
     (sessDone "t1").consensusReached = true ∧
     (sessDone "t1").status = JudgeSessionStatus.completed ∧
     (sessDone "t1").completedAt = some "t1") :=
  ⟨reachConsensus_teamActive "t1", by simp [teamDone],
   c6_amended_consensus_completes teamActive engEmpty "j1" "t1" emptyConsensus
     (teamDone "t1") (reachConsensus_teamActive "t1") (sessDone "t1")
     (by simp [teamDone]) rfl⟩

/-- C10: the `ConsensusVerdict` returned by `reachConsensus` depends only
on the engine state, not on which existing judge session id is passed
(nor on the wall clock): two calls on the same engine from two existing
sessions return the same verdict, or fail with the same error. -/
theorem c10_session_independence (team : JudgeTeamState) (eng : EngineState)
    (sid1 sid2 now1 now2 : String)
    (h1 : (findSession team sid1).isSome) (h2 : (findSession team sid2).isSome) :
    (reachConsensus team eng sid1 now1).map Prod.fst =
      (reachConsensus team eng sid2 now2).map Prod.fst := by
  obtain ⟨s1, hs1⟩ := Option.isSome_iff_exists.mp h1
  obtain ⟨s2, hs2⟩ := Option.isSome_iff_exists.mp h2
  unfold reachConsensus
  rw [hs1, hs2]
  cases buildTrainingSignals eng.scenarios with
  | error e => rfl
  | ok sigs => rfl

/-- A second active session, to instantiate the independence theorem. -/
def sessActive2 : JudgeSession :=
  ⟨"j2", "t0", none, .active, [], false, none⟩

/-- A judge team holding two active sessions. -/
def teamTwo : JudgeTeamState := ⟨[sessActive, sessActive2]⟩

/-- C10 witness: both sessions of `teamTwo` exist, and the theorem equates
the verdicts obtained through either of them. -/
theorem c10_session_independence_witness :
    (findSession teamTwo "j1").isSome = true ∧
    (findSession teamTwo "j2").isSome = true ∧
    (reachConsensus teamTwo engFailed "j1" "t1").map Prod.fst =
      (reachConsensus teamTwo engFailed "j2" "t2").map Prod.fst :=
  ⟨by decide, by decide,
   c10_session_independence teamTwo engFailed "j1" "j2" "t1" "t2" (by decide) (by decide)⟩

/-- `buildTrainingSignals` succeeds iff every failed scenario with an
actual outcome has at least one input. -/
theorem buildTrainingSignals_ok_iff (l : List SimulationScenario) :
    (∃ sigs, buildTrainingSignals l = .ok sigs) ↔
      ∀ s ∈ l, s.status = ScenarioStatus.failed → s.actualOutcome.isSome → s.inputs ≠ [] := by
  induction l with
  | nil => simp [buildTrainingSignals]
  | cons s rest ih =>
    by_cases hf : s.status = ScenarioStatus.failed
    · cases hao : s.actualOutcome with
      | none =>
        simp only [buildTrainingSignals, hf, if_true, hao]
        rw [ih]
        constructor
        · intro h x hx hxf hxa
          rcases List.mem_cons.mp hx with rfl | hx'
          · rw [hao] at hxa; cases hxa
          · exact h x hx' hxf hxa
        · intro h x hx hxf hxa
          exact h x (List.mem_cons_of_mem s hx) hxf hxa
      | some a =>
        cases hin : s.inputs with
        | nil =>
          simp only [buildTrainingSignals, hf, if_true, hao, hin]
          constructor
          · intro ⟨sigs, hsigs⟩; cases hsigs
          · intro h
            exact absurd hin (h s (List.mem_cons_self s rest) hf (by rw [hao]; rfl))
        | cons i irest =>
          simp only [buildTrainingSignals, hf, if_true, hao, hin]
          constructor
          · intro ⟨sigs, hsigs⟩ x hx hxf hxa
            rcases List.mem_cons.mp hx with rfl | hx'
            · rw [hin]; exact List.cons_ne_nil i irest
            · cases hrest : buildTrainingSignals rest with
              | error e => rw [hrest] at hsigs; cases hsigs
              | ok sigs' =>
                exact (ih.mp ⟨sigs', hrest⟩) x hx' hxf hxa
          · intro h
            obtain ⟨sigs', hrest⟩ := ih.mpr
              (fun x hx hxf hxa => h x (List.mem_cons_of_mem s hx) hxf hxa)
            rw [hrest]
            exact ⟨_, rfl⟩
    · simp only [buildTrainingSignals, hf, if_false]
      rw [ih]
      constructor
      · intro h x hx hxf hxa
        rcases List.mem_cons.mp hx with rfl | hx'
        · exact absurd hxf hf
        · exact h x hx' hxf hxa
      · intro h x hx hxf hxa
        exact h x (List.mem_cons_of_mem s hx) hxf hxa

/-- C9: for an existing session id, `reachConsensus` is total exactly
under the precondition that every failed scenario with a defined actual
outcome has at least one input; training-signal generation reads the
first input without a guard, so an engine state containing a failed,
executed scenario with an empty inputs list makes `reachConsensus` raise
a runtime error instead of returning a `ConsensusVerdict`. -/
theorem c9_empty_inputs_throws (team : JudgeTeamState) (eng : EngineState)
    (sessionId nowIso : String) (sess : JudgeSession)
    (hsess : findSession team sessionId = some sess) :
    ((∀ s ∈ eng.scenarios, s.status = ScenarioStatus.failed → s.actualOutcome.isSome →
        s.inputs ≠ []) →
      ∃ r, reachConsensus team eng sessionId nowIso = .ok r) ∧
    ((∃ s ∈ eng.scenarios, s.status = ScenarioStatus.failed ∧ s.actualOutcome.isSome ∧
        s.inputs = []) →
      ∃ e, reachConsensus team eng sessionId nowIso = .error e) := by
  constructor
  · intro h
    obtain ⟨sigs, hsigs⟩ := (buildTrainingSignals_ok_iff eng.scenarios).mpr h
    unfold reachConsensus
    rw [hsess, hsigs]
    exact ⟨_, rfl⟩
  · intro ⟨s, hs, hf, ha, hnil⟩
    cases hb : buildTrainingSignals eng.scenarios with
    | error e =>
      unfold reachConsensus
      rw [hsess, hb]
      exact ⟨e, rfl⟩
    | ok sigs =>
      exact absurd hnil ((buildTrainingSignals_ok_iff eng.scenarios).mp ⟨sigs, hb⟩ s hs hf ha)

/-- A failed, executed scenario whose inputs list is empty: the state on
which training-signal generation crashes. -/
def scnNoInputs : SimulationScenario :=
  { id := "F0", name := "n", description := "d",
    inputs := [],
    expectedOutcome := ⟨true, [], none, none⟩,
    actualOutcome := some ⟨false, [], [], some emptyTrace, "nope"⟩,
    status := .failed }

/-- Engine holding only `scnNoInputs`. -/
def engNoInputs : EngineState := ⟨[scnNoInputs], [], []⟩

/-- C9 witness: on the concrete crashing state the session exists, the
violation exists, and the theorem yields the error. -/
theorem c9_empty_inputs_throws_witness :
    (findSession teamActive "j1" = some sessActive) ∧
    (∃ s ∈ engNoInputs.scenarios, s.status = ScenarioStatus.failed ∧
      s.actualOutcome.isSome ∧ s.inputs = []) ∧
    (∃ e, reachConsensus teamActive engNoInputs "j1" "t1" = .error e) :=
  ⟨rfl, ⟨scnNoInputs, by simp [engNoInputs], rfl, rfl, rfl⟩,
   (c9_empty_inputs_throws teamActive engNoInputs "j1" "t1" sessActive rfl).2
     ⟨scnNoInputs, by simp [engNoInputs], rfl, rfl, rfl⟩⟩

/-! ## Batch judging -/

/-- A scenario can be judged iff its registry entry and its timeline are
both found (the two conditions `judgeScenario` throws on). -/
def canJudge (eng : EngineState) (s : SimulationScenario) : Bool :=
  (eng.scenarios.find? (fun x => x.id = s.id)).isSome &&
  (lookupTimeline eng.timelines s.id).isSome

/-- A successful `judgeScenario` only touches the verdict store. -/
theorem judgeScenario_ok_fields (eng : EngineState) (sid nowIso : String)
    (v : JudgeVerdict) (eng' : EngineState)
    (hok : judgeScenario eng sid nowIso = .ok (v, eng')) :
    eng'.scenarios = eng.scenarios ∧ eng'.timelines = eng.timelines := by
  unfold judgeScenario at hok
  cases hs : eng.scenarios.find? (fun x => x.id = sid) with
  | none => rw [hs] at hok; cases hok
  | some scenario =>
    cases ht : lookupTimeline eng.timelines sid with
    | none => rw [hs, ht] at hok; cases hok
    | some timeline =>
      rw [hs, ht] at hok
      simp only [Except.ok.injEq, Prod.mk.injEq] at hok
      rw [← hok.2]
      exact ⟨rfl, rfl⟩

/-- `judgeScenario` succeeds exactly when scenario and timeline exist. -/
theorem judgeScenario_isOk_iff (eng : EngineState) (sid nowIso : String) :
    (∃ v eng', judgeScenario eng sid nowIso = .ok (v, eng')) ↔
      ((eng.scenarios.find? (fun x => x.id = sid)).isSome ∧
       (lookupTimeline eng.timelines sid).isSome) := by
  unfold judgeScenario
  cases hs : eng.scenarios.find? (fun x => x.id = sid) with
  | none => simp
  | some scenario =>
    cases ht : lookupTimeline eng.timelines sid with
    | none => simp
    | some timeline => simp

/-- `canJudge` only reads the scenario and timeline stores. -/
theorem canJudge_congr (e1 e2 : EngineState) (hs : e1.scenarios = e2.scenarios)
    (ht : e1.timelines = e2.timelines) (s : SimulationScenario) :
    canJudge e1 s = canJudge e2 s := by
  unfold canJudge
  rw [hs, ht]

/-- The `judgeAllScenarios` loop: the judged-id list collects exactly the
scenarios that can be judged (in order), and the scenario/timeline stores
pass through unchanged. -/
theorem judgeFold_spec (nowIso : String) (l : List SimulationScenario) :
    ∀ acc : List String × EngineState,
      (l.foldl (judgeFold nowIso) acc).2.scenarios = acc.2.scenarios ∧
      (l.foldl (judgeFold nowIso) acc).2.timelines = acc.2.timelines ∧
      (l.foldl (judgeFold nowIso) acc).1 =
        acc.1 ++ (l.filter (fun s => canJudge acc.2 s)).map (fun s => s.id) := by
  induction l with
  | nil => intro acc; simp
  | cons s rest ih =>
    intro acc
    by_cases hc : canJudge acc.2 s = true
    · have hcj := hc
      unfold canJudge at hcj
      rw [Bool.and_eq_true] at hcj
      obtain ⟨v, eng', hok⟩ := (judgeScenario_isOk_iff acc.2 s.id nowIso).mpr
        ⟨hcj.1, hcj.2⟩
      have hfields := judgeScenario_ok_fields acc.2 s.id nowIso v eng' hok
      have hstep : judgeFold nowIso acc s = (acc.1 ++ [s.id], eng') := by
        unfold judgeFold
        rw [hok]
      rw [List.foldl_cons, hstep]
      obtain ⟨ha, hb, hl⟩ := ih (acc.1 ++ [s.id], eng')
      refine ⟨by rw [ha]; exact hfields.1, by rw [hb]; exact hfields.2, ?_⟩
      rw [hl]
      have hfc : rest.filter (fun x => canJudge eng' x) =
          rest.filter (fun x => canJudge acc.2 x) :=
        List.filter_congr
          (fun x _ => canJudge_congr eng' acc.2 hfields.1 hfields.2 x)
      simp only at hfc ⊢
      rw [hfc, List.filter_cons_of_pos hc, List.map_cons, List.append_assoc]
      rfl
    · have hfail : judgeFold nowIso acc s = acc := by
        unfold judgeFold
        cases hj : judgeScenario acc.2 s.id nowIso with
        | error e => rfl
        | ok r =>
          obtain ⟨r1, r2⟩ := r
          have := (judgeScenario_isOk_iff acc.2 s.id nowIso).mp ⟨r1, r2, hj⟩
          unfold canJudge at hc
          rw [Bool.and_eq_true] at hc
          exact absurd ⟨this.1, this.2⟩ hc
      rw [List.foldl_cons, hfail]
      obtain ⟨ha, hb, hl⟩ := ih acc
      refine ⟨ha, hb, ?_⟩
      rw [hl, List.filter_cons_of_neg (by simpa using hc)]

/-- Looking up the mutated session after an id-preserving in-place map. -/
theorem find?_map_update (l : List JudgeSession) (sid : String)
    (f : JudgeSession → JudgeSession) (hf : ∀ s, (f s).id = s.id) :
    (l.map (fun s => if s.id = sid then f s else s)).find? (fun s => s.id = sid) =
      (l.find? (fun s => s.id = sid)).map f := by
  induction l with
  | nil => rfl
  | cons a l ih =>
    by_cases h : a.id = sid
    · rw [List.map_cons, if_pos h,
          List.find?_cons_of_pos _ (by simp [hf a, h]),
          List.find?_cons_of_pos _ (by simp [h])]
      rfl
    · rw [List.map_cons, if_neg h,
          List.find?_cons_of_neg _ (by simp [h]),
          List.find?_cons_of_neg _ (by simp [h]),
          ih]

/-- C7: `judgeAllScenarios` throws iff the session id is unknown;
otherwise it succeeds, attempting exactly the scenarios whose status is
not `pending`: each judgeable one's id is appended to `scenariosJudged`
in order, a scenario whose judging throws is skipped (id not appended)
and the rest of the batch is still judged. -/
theorem c7_judge_all_isolated (team : JudgeTeamState) (eng : EngineState)
    (sessionId nowIso : String) :
    ((∃ r, judgeAllScenarios team eng sessionId nowIso = .ok r) ↔
      (findSession team sessionId).isSome) ∧
    (∀ sess, findSession team sessionId = some sess →
      ∃ team' eng', judgeAllScenarios team eng sessionId nowIso = .ok (team', eng') ∧
        findSession team' sessionId = some
          { sess with scenariosJudged := sess.scenariosJudged ++
              (((eng.scenarios.filter (fun s => !(s.status == ScenarioStatus.pending))).filter
                (fun s => canJudge eng s)).map (fun s => s.id)) }) := by
  constructor
  · unfold judgeAllScenarios
    cases hf : findSession team sessionId with
    | none => simp
    | some sess => simp
  · intro sess hsess
    obtain ⟨-, -, hl⟩ := judgeFold_spec nowIso
      (eng.scenarios.filter (fun s => !(s.status == ScenarioStatus.pending))) ([], eng)
    rw [List.nil_append] at hl
    refine ⟨updateSession team sessionId
        (fun s => { s with scenariosJudged := s.scenariosJudged ++
          ((eng.scenarios.filter (fun s => !(s.status == ScenarioStatus.pending))).foldl
            (judgeFold nowIso) ([], eng)).1 }),
      ((eng.scenarios.filter (fun s => !(s.status == ScenarioStatus.pending))).foldl
        (judgeFold nowIso) ([], eng)).2, ?_, ?_⟩
    · unfold judgeAllScenarios
      rw [hsess]
    · unfold findSession updateSession
      have hfind : team.sessions.find? (fun s => s.id = sessionId) = some sess := hsess
      have h2 := find?_map_update team.sessions sessionId
        (fun s => { s with scenariosJudged := s.scenariosJudged ++
          ((eng.scenarios.filter (fun s => !(s.status == ScenarioStatus.pending))).foldl
            (judgeFold nowIso) ([], eng)).1 }) (fun s => rfl)
      rw [hfind] at h2
      refine h2.trans ?_
      show some _ = some _
      rw [hl]

/-- A running scenario with no stored timeline: judging it throws and it
is skipped by the batch. -/
def scnRunning : SimulationScenario :=
  { id := "S2", name := "n", description := "d",
    inputs := [⟨1, "m", none, none⟩],
    expectedOutcome := ⟨false, [], none, none⟩,
    actualOutcome := none,
    status := .running }

/-- A pending scenario: never attempted by the batch. -/
def scnPend : SimulationScenario :=
  { id := "S3", name := "n", description := "d",
    inputs := [⟨1, "m", none, none⟩],
    expectedOutcome := ⟨false, [], none, none⟩,
    actualOutcome := none,
    status := .pending }

/-- Engine with one judgeable, one judging-failure and one pending
scenario. -/
def engBatch : EngineState := ⟨[c4scn, scnRunning, scnPend], [("S1", c4tl)], []⟩

/-- C7 witness: on the concrete batch state the session exists and the
theorem determines the judged-id list: `S1` judged, `S2` skipped after
its judging error, `S3` never attempted. -/
theorem c7_judge_all_isolated_witness :
    (findSession teamActive "j1" = some sessActive) ∧
    (((engBatch.scenarios.filter (fun s => !(s.status == ScenarioStatus.pending))).filter
        (fun s => canJudge engBatch s)).map (fun s => s.id) = ["S1"]) ∧
    (∃ team' eng', judgeAllScenarios teamActive engBatch "j1" "t" = .ok (team', eng') ∧
      findSession team' "j1" = some
        { sessActive with scenariosJudged := sessActive.scenariosJudged ++
            (((engBatch.scenarios.filter (fun s => !(s.status == ScenarioStatus.pending))).filter
              (fun s => canJudge engBatch s)).map (fun s => s.id)) }) :=
  ⟨rfl, by decide,
   (c7_judge_all_isolated teamActive engBatch "j1" "t").2 sessActive rfl⟩

